import Mathlib

/-!
Verification of the tmux control-mode tracking subsystem of wtc.

This file gives a shallow embedding, in Lean, of the functions of the wtc
repository that the specification claims talk about, together with theorems
settling those claims.  Pure C helpers become Lean functions on lists and
integers; stateful code becomes explicit state passing; loops whose
termination is in question are modelled with an explicit fuel argument, so
that "the loop never exits" becomes "the model returns none for every fuel".
Machine integers are modelled as Int (with explicit wrap-around modulo 2^32
where the overflow behaviour matters) and size_t values as Nat.
-/

/- ======================================================================
   Constants from tmux_internal.h
   ====================================================================== -/

def WTC_TMUX_REFRESH_PANES : Nat := 1

def WTC_TMUX_REFRESH_WINDOWS : Nat := 2

def WTC_TMUX_REFRESH_SESSIONS : Nat := 4

def WTC_TMUX_REFRESH_CLIENTS : Nat := 8

def WTC_TMUX_TEMP_SESSION_NAME : String := "__wtc_tmux_tmp"

/- ======================================================================
   parseint (src/src/tmux_parse.c, lines 139-154)

   C source:
     int ret = 0;
     if (*str == 0) return -1;
     for ( ; *str != 0; str++) {
         if (*str < 48 || *str > 57) return -1;
         ret = 10 * ret + (*str - 48);
         if (ret < 0) return -1;
     }
     return ret;
   where 48 and 57 are the character codes of the digits zero and nine.
   The accumulator ret is a C int; its overflow is modelled as wrap-around
   modulo 2^32 into the signed range, which is the reading the claim itself
   prescribes.
   ====================================================================== -/

/-- wrap32 x reduces an integer into the signed 32-bit range, modelling
wrap-around of a C int. -/
def wrap32 (x : Int) : Int := (x + 2 ^ 31) % 2 ^ 32 - 2 ^ 31

/-- digitVal c is the numeric value the C code computes for character c,
namely its character code minus 48 (the code of the zero digit). -/
def digitVal (c : Char) : Int := (c.toNat : Int) - 48

/-- parseintLoop models the for loop of parseint: the accumulator starts at
ret and each character is checked to be a digit (code between 48 and 57)
before being folded in with wrap-around; a negative accumulator aborts with
-1. -/
def parseintLoop : List Char → Int → Int
  | [], ret => ret
  | c :: s, ret =>
    if c.toNat < 48 ∨ 57 < c.toNat then -1
    else
      let ret' := wrap32 (10 * ret + digitVal c)
      if ret' < 0 then -1 else parseintLoop s ret'

/-- parseint models the C function parseint from tmux_parse.c: the empty
string yields -1, otherwise the digit-folding loop runs from 0. -/
def parseint (s : List Char) : Int :=
  match s with
  | [] => -1
  | _ :: _ => parseintLoop s 0

/-- decValue s is the mathematical decimal value of the digit string s,
with no overflow: the reference value the claim compares parseint against. -/
def decValue (s : List Char) : Int :=
  s.foldl (fun a c => 10 * a + digitVal c) 0

/-- overflowDigits is the decimal rendering of 2^32, an all-digit string
whose value does not fit in an int. -/
def overflowDigits : List Char := ['4', '2', '9', '4', '9', '6', '7', '2', '9', '6']

/- ======================================================================
   wtc_tmux_new (src/unnamed tmux.c, lines 793-809 of the current copy)

   calloc zeroes the object, then ref, timeout, w and h are assigned.
   The current program is the refactored file set: tmux_parse.c needs
   wtc_tmux_cc_launch, the current tmux_process.c needs wtc_tmux_waitpid,
   and only the refactored tmux.c (the same document whose sigc_cb and
   wtc_tmux_waitpid are modelled above) wires the refresh pipe to
   wtc_tmux_refresh_cb; its wtc_tmux_new initializes timeout to 5000.
   The superseded monolithic tmux.c wrote 10000 there, and tmux.h still
   documents the default as 10,000 milliseconds.
   ====================================================================== -/

structure WtcTmuxObj where
  ref : Nat
  timeout : Nat
  w : Nat
  h : Nat
  connected : Bool
  refresh : Nat
deriving DecidableEq, Repr

/-- wtc_tmux_new models the successful path of wtc_tmux_new in the current
refactored tmux.c: all fields are zeroed by calloc and then ref, timeout,
w, h are set; the timeout initializer is 5000, not the 10,000 that tmux.h
documents as the default. -/
def wtc_tmux_new : WtcTmuxObj :=
  { ref := 1, timeout := 5000, w := 80, h := 24, connected := false, refresh := 0 }

/- ======================================================================
   wtc_tmux_cc_ref / wtc_tmux_cc_unref (src/unnamed tmux_process.c,
   lines 48-71 of the current copy)

   C source of unref:
     if (!cc || !cc->ref || cc->ref--) return;
     ... teardown: remove event source, close fin, free ring and cc ...
   The guard uses a post-decrement, so the value tested is the old
   reference count.
   ====================================================================== -/

structure CcUnrefResult where
  ref : Nat
  teardown : Bool
deriving DecidableEq, Repr

/-- wtc_tmux_cc_ref models the reference increment: a zero count is left
alone, any other count is incremented. -/
def wtc_tmux_cc_ref (ref : Nat) : Nat :=
  if ref = 0 then ref else ref + 1

/-- wtc_tmux_cc_unref models the reference decrement on a non-null cc.
The C guard is a disjunction ending in a post-decrement of the count, so
after the zero test fails the count is decremented and the tested value is
the old count, which is non-zero; the teardown below the guard runs only
when the tested value is zero. -/
def wtc_tmux_cc_unref (ref : Nat) : CcUnrefResult :=
  if ref = 0 then ⟨ref, false⟩
  else
    let old := ref
    let newRef := ref - 1
    if old ≠ 0 then ⟨newRef, false⟩
    else ⟨newRef, true⟩

/- ======================================================================
   wtc_tmux_cc_launch, list-insertion phase (src/unnamed tmux_process.c,
   lines 120-217 of the current copy)

   C source of the insertion:
     if (tmux->ccs) {
         tmp = tmux->ccs;
         while (true) {
             if (tmp->temp) { send kill-session on tmp; }
             if (!tmp->next) break;
         }
         tmp->next = cc;  cc->previous = tmp;
     } else {
         tmux->ccs = cc;
     }
   The loop body never advances tmp, so the break is reachable only when
   the list head has no successor.  The model counts kill-session sends and
   uses fuel: none means the loop has not exited within fuel iterations.
   ====================================================================== -/

structure CcRec where
  temp : Bool
deriving DecidableEq, Repr

/-- ccLaunchInsertLoop models one run of the while(true) loop with tmp
pinned to the list head: each iteration sends kill-session if the head is
temp, and exits only when the head has no successor. -/
def ccLaunchInsertLoop (tmp : CcRec) (rest : List CcRec) : Nat → Nat → Option Nat
  | 0, _ => none
  | fuel + 1, kills =>
    let kills' := if tmp.temp then kills + 1 else kills
    if rest = [] then some kills'
    else ccLaunchInsertLoop tmp rest fuel kills'

/-- ccLaunchInsert models the insertion phase of wtc_tmux_cc_launch: on an
empty list the new cc becomes the head; otherwise the loop above must exit
before the new cc is linked after tmp (the head).  The result carries the
final list and the number of kill-session commands sent; none means the
call never returns. -/
def ccLaunchInsert (fuel : Nat) (ccs : List CcRec) (newCc : CcRec) :
    Option (List CcRec × Nat) :=
  match ccs with
  | [] => some ([newCc], 0)
  | tmp :: rest =>
    match ccLaunchInsertLoop tmp rest fuel 0 with
    | none => none
    | some kills => some ([tmp, newCc], kills)

/-- CcLaunchInit records what wtc_tmux_cc_launch sets up before the list
insertion: the argument vector handed to wtc_tmux_fork (the tmux command
prefix is prepended by fork), and the fields of the freshly built cc. -/
structure CcLaunchInit where
  args : List String
  temp : Bool
  session : Option Nat
  ref : Nat
  compensate : Bool
deriving DecidableEq, Repr

/-- wtc_tmux_cc_launch_init models the construction phase of
wtc_tmux_cc_launch: with no session the command is new-session on the
reserved temp name and the cc gets temp true and no session reference;
with a session the command attaches to it by id.  In both cases the ref
count is 2 and compensate is set. -/
def wtc_tmux_cc_launch_init (sess : Option Nat) : CcLaunchInit :=
  match sess with
  | none =>
    { args := ["-C", "new-session", "-s", WTC_TMUX_TEMP_SESSION_NAME]
      temp := true, session := none, ref := 2, compensate := true }
  | some sid =>
    { args := ["-C", "attach-session", "-t", "$" ++ toString sid]
      temp := false, session := some sid, ref := 2, compensate := true }

/- ======================================================================
   wtc_tmux_cc_exec, command serialization and write (src/unnamed
   tmux_process.c, lines 545-647 of the current copy)

   The C first computes len (3 bytes per token plus the escaped cost of
   each character), then fills a buffer with the quoted tokens separated by
   single spaces followed by a newline and a NUL, and finally writes
   exactly len bytes of the buffer to the stdin descriptor of the cc.
   ====================================================================== -/

/-- escChar models the per-character escaping of the serialization loop:
a double quote becomes backslash quote, a newline becomes backslash n,
anything else is copied. -/
def escChar (c : Char) : List Char :=
  if c = '"' then ['\\', '"']
  else if c = '\n' then ['\\', 'n']
  else [c]

/-- escToken applies escChar across a token. -/
def escToken (t : List Char) : List Char := (t.map escChar).flatten

/-- quoteCost models the length computation of the first loop: 2 bytes for
a double quote or a newline, 1 byte otherwise. -/
def quoteCost (c : Char) : Nat :=
  if c = '"' then 2 else if c = '\n' then 2 else 1

/-- ccExecLen models the len accumulator: 3 plus the escaped cost of each
character, summed over the tokens. -/
def ccExecLen (cmds : List (List Char)) : Nat :=
  cmds.foldl (fun len t => len + 3 + (t.map quoteCost).sum) 0

/-- ccExecBuild models the buffer-filling loop; the flag records whether
the token is the first one (no separating space before it). -/
def ccExecBuild : List (List Char) → Bool → List Char
  | [], _ => []
  | t :: rest, first =>
    (if first then [] else [' ']) ++ ('"' :: escToken t ++ ['"']) ++ ccExecBuild rest false

/-- ccExecBuf is the buffer content after the build loop appends the final
newline (the trailing NUL terminator is not part of the data). -/
def ccExecBuf (cmds : List (List Char)) : List Char :=
  ccExecBuild cmds true ++ ['\n']

/-- ccExecWritten is the byte sequence the write loop sends: exactly the
first len bytes of the buffer. -/
def ccExecWritten (cmds : List (List Char)) : List Char :=
  (ccExecBuf cmds).take (ccExecLen cmds)

/-- quotedTok renders one token the way the claim describes: wrapped in
double quotes with the two escapes applied. -/
def quotedTok (t : List Char) : List Char := '"' :: escToken t ++ ['"']

/-- quotedLine renders the whole command the way the claim describes: the
quoted tokens separated by single spaces, terminated by one newline. -/
def quotedLine (cmds : List (List Char)) : List Char :=
  List.intercalate [' '] (cmds.map quotedTok) ++ ['\n']

/-- exCmds is the command array of the concurrent-command quoting example
in the specification. -/
def exCmds : List (List Char) :=
  ["display-message".toList, "-p".toList, "a \"b\" c\nd".toList]

/- ======================================================================
   sigc_cb, SIGCHLD reap loop (src/unnamed tmux.c, lines 740-791 of the
   current copy)

   C source:
     r = read_available(fd, WTC_RDAVL_DISCARD, NULL, NULL);
     if (r < 0) return r;
     while (pid = waitpid(-1, NULL, WNOHANG)) {
         if (r < 0) { if (errno == EINTR) continue; return r; }
         prev = NULL;
         for (cc = tmux->ccs; cc; prev = cc, cc = cc->next) {
             if (cc->pid != pid) continue;
             unlink cc; if it was the head and had no successor,
             wtc_tmux_queue_refresh(tmux, WTC_TMUX_REFRESH_SESSIONS);
             wtc_tmux_cc_unref(cc); break;
         }
     }
     return 0;
   The while condition keeps the loop alive for every non-zero waitpid
   result, including the -1 of a failure; the error test inside the body
   reads the stale r from the pipe drain, not the waitpid result.  The
   model takes the sequence of waitpid results as an oracle indexed by call
   number and uses fuel: none means the loop is still running after fuel
   iterations.
   ====================================================================== -/

structure CcProc where
  pid : Int
  temp : Bool
deriving DecidableEq, Repr

/-- sigcRemoveRest models the unlink scan from a non-head position: prev is
non-null, so removal there never queues a refresh. -/
def sigcRemoveRest : List CcProc → Int → List CcProc
  | [], _ => []
  | c :: rest, pid => if c.pid = pid then rest else c :: sigcRemoveRest rest pid

/-- sigcScan models one pass of the unlink loop over the cc list: the first
cc whose pid matches is unlinked, and a Sessions refresh is queued exactly
when that cc was the list head and had no successor. -/
def sigcScan (ccs : List CcProc) (pid : Int) : List CcProc × Bool :=
  match ccs with
  | [] => ([], false)
  | c :: rest =>
    if c.pid = pid then (rest, rest = [])
    else (c :: sigcRemoveRest rest pid, false)

structure SigcOut where
  ccs : List CcProc
  refreshed : Bool
  result : Int
deriving DecidableEq, Repr

/-- sigcReapLoop models the while loop of sigc_cb.  wp gives the result of
the n-th waitpid call; r is the stale result of the pipe drain that the
body tests; none means the loop has not exited within fuel iterations. -/
def sigcReapLoop (wp : Nat → Int) : Nat → Nat → Int → List CcProc → Bool → Option SigcOut
  | 0, _, _, _, _ => none
  | fuel + 1, call, r, ccs, refreshed =>
    let pid := wp call
    if pid = 0 then some ⟨ccs, refreshed, 0⟩
    else if r < 0 then some ⟨ccs, refreshed, r⟩
    else
      let scanned := sigcScan ccs pid
      sigcReapLoop wp fuel (call + 1) r scanned.1 (refreshed || scanned.2)

/-- sigc_cb_model models the whole callback: a failed pipe drain returns
its error at once, otherwise the reap loop runs with the drain result as
the stale r. -/
def sigc_cb_model (drainR : Int) (wp : Nat → Int) (fuel : Nat) (ccs : List CcProc) :
    Option SigcOut :=
  if drainR < 0 then some ⟨ccs, false, drainR⟩
  else sigcReapLoop wp fuel 0 drainR ccs false

/-- wpAlwaysFail is the waitpid oracle of a supervisor wake-up where every
child has already been reaped elsewhere: each call fails with -1 (ECHILD),
a situation the comment in sigc_cb itself acknowledges can happen. -/
def wpAlwaysFail : Nat → Int := fun _ => -1

/-- wpTempOnly is the waitpid oracle that reaps pid 7 on the first call and
reports no further children afterwards. -/
def wpTempOnly : Nat → Int := fun n => if n = 0 then 7 else 0

/- ======================================================================
   wtc_tmux_waitpid (src/unnamed tmux.c, lines 1110-1165 of the current
   copy) and the reply-wait loop of wtc_tmux_cc_exec (src/unnamed
   tmux_process.c, lines 619-639 of the current copy), in the environment
   where the watched child never exits and no new data ever arrives on the
   polled descriptor.

   Both loops call poll(&pol, 1, tmux->timeout), passing the configured
   timeout (an unsigned int) straight through as the third argument.
   ====================================================================== -/

/-- pollNoNewEvents models POSIX poll in an environment where no new data
will ever arrive on the descriptor: with data already pending poll reports
one ready descriptor; otherwise a nonnegative timeout argument elapses and
poll returns 0 (immediately when the argument is 0), while a negative
argument would make poll wait forever, here never returning (none). -/
def pollNoNewEvents (timeoutArg : Int) (pending : Bool) : Option Int :=
  if pending then some 1
  else if timeoutArg < 0 then none
  else some 0

structure WaitpidOut where
  killed : Bool
  reflagged : Bool
deriving DecidableEq, Repr

/-- wtc_tmux_waitpid_drained models the bounded-wait loop of
wtc_tmux_waitpid from the point where the self-pipe is empty, with the
waited-on child never exiting: on a poll timeout the while loop exits with
success false, so the child is SIGKILLed and reaped (killed true); a
negative poll argument would block forever (none). -/
def wtc_tmux_waitpid_drained (timeout : Int) : Option WaitpidOut :=
  match pollNoNewEvents timeout false with
  | none => none
  | some _ => some ⟨true, false⟩

/-- wtc_tmux_waitpid_model models the bounded-wait loop of wtc_tmux_waitpid
when the waited-on child never exits and no new SIGCHLD bytes arrive; the
Nat argument counts the bytes currently in the self-pipe.  With data
pending the poll reports readable, the pipe is drained, waitpid with
WNOHANG returns 0 (child still running), the reflag is noted, and the loop
polls again on the now-empty pipe. -/
def wtc_tmux_waitpid_model (timeout : Int) : Nat → Option WaitpidOut
  | 0 => wtc_tmux_waitpid_drained timeout
  | _ + 1 =>
    match pollNoNewEvents timeout true with
    | none => none
    | some n =>
      if n = 0 then some ⟨true, false⟩
      else (wtc_tmux_waitpid_drained timeout).map fun o => ⟨o.killed, true⟩

/-- cc_exec_poll_model models the reply-wait loop of wtc_tmux_cc_exec when
the control client sends nothing (its stdout stays empty): the pair is
(handled latch, returned value) and none means the call blocks forever in
poll.  When poll returns 0 the while loop exits at once with r equal to 0
and the handled latch still false, so the call gives up without a reply,
hang-up, or error. -/
def cc_exec_poll_model (timeout : Int) : Option (Bool × Int) :=
  match pollNoNewEvents timeout false with
  | none => none
  | some _ => some (false, 0)

/- ======================================================================
   wtc_tmux_reload_sessions, id synchronization and temp launch
   (src/src/tmux_parse.c, lines 781-913)

   The deletion loop walks the existing sessions; a session found in the
   observed sids array marks the first matching entry with -1 and
   survives, an absent one is removed with a SessionClosed closure.  The
   creation loop walks the observed array; unmarked entries become new
   sessions, and a NewSession closure is enqueued unless the observed name
   equals the reserved temp session name.  After the option queries and
   the recursive windows and clients reloads succeed, an empty sessions
   collection triggers wtc_tmux_cc_launch(tmux, NULL).
   ====================================================================== -/

structure SessRec where
  id : Nat
deriving DecidableEq, Repr

inductive SessClosure
  | newSession (id : Nat)
  | sessionClosed (id : Nat)
deriving DecidableEq, Repr

/-- markFirst sids id replaces the first entry of sids equal to id with the
marker -1; none if no entry matches. -/
def markFirst : List Int → Int → Option (List Int)
  | [], _ => none
  | x :: xs, id =>
    if x = id then some ((-1) :: xs)
    else (markFirst xs id).map (x :: ·)

/-- sessDelLoop models the HASH_ITER deletion loop: it returns the
surviving sessions in order, the sids array with survivors marked -1, and
the SessionClosed closures in the order they are enqueued. -/
def sessDelLoop : List SessRec → List Int → List SessRec × List Int × List SessClosure
  | [], sids => ([], sids, [])
  | s :: rest, sids =>
    match markFirst sids (s.id : Int) with
    | some sids' =>
      let out := sessDelLoop rest sids'
      (s :: out.1, out.2.1, out.2.2)
    | none =>
      let out := sessDelLoop rest sids
      (out.1, out.2.1, .sessionClosed s.id :: out.2.2)

/-- sessCreateLoop models the creation loop over the marked (sid, name)
pairs: marked entries are skipped, every other entry becomes a session,
and a NewSession closure is enqueued unless the name is the reserved temp
session name. -/
def sessCreateLoop : List (Int × String) → List SessRec × List SessClosure
  | [] => ([], [])
  | (sid, name) :: rest =>
    if sid = -1 then sessCreateLoop rest
    else
      let out := sessCreateLoop rest
      if name = WTC_TMUX_TEMP_SESSION_NAME then (⟨sid.toNat⟩ :: out.1, out.2)
      else (⟨sid.toNat⟩ :: out.1, .newSession sid.toNat :: out.2)

/-- reloadSessionsModel composes the two loops and the final temp-launch
test of wtc_tmux_reload_sessions on its success path (option queries and
the recursive windows and clients reloads succeeding): it returns the
final sessions collection, the closures enqueued in order, and whether
wtc_tmux_cc_launch(tmux, NULL) is invoked, which the code does exactly
when the collection ends up empty. -/
def reloadSessionsModel (existing : List SessRec) (sids : List Int) (names : List String) :
    List SessRec × List SessClosure × Bool :=
  let del := sessDelLoop existing sids
  let created := sessCreateLoop (del.2.1.zip names)
  let final := del.1 ++ created.1
  (final, del.2.2 ++ created.2, final.isEmpty)

/- ======================================================================
   wtc_tmux_refresh_cb (src/src/tmux_parse.c, lines 934-999) and
   wtc_tmux_queue_refresh (lines 1001-1013)

   The callback drains the refresh pipe, snapshots tmux->refresh into a
   local variable, zeroes the field, then runs the four reload blocks in
   order, each guarded by a flag test on the local copy; the sessions
   block zeroes the local copy on success, the windows block clears the
   Windows and Panes bits, the panes block clears the Panes bit, the
   clients block clears the Clients bit.  A negative reload result jumps
   to the exit label, where any remaining local bits are OR-ed back into
   tmux->refresh, the closure queue is cleared (releasing free-after-use
   payloads), and the result is returned.  On the success path the queued
   closures are invoked in order until one returns non-zero, and the exit
   label then clears the queue.

   The reload procedures and the closure invocations are abstracted as
   oracle functions over an otherwise opaque state; a ghost trace records
   which reloads ran, in order.
   ====================================================================== -/

structure RefreshSt (sig cl : Type) where
  refresh : Nat
  closures : List cl
  inner : sig
deriving DecidableEq, Repr

inductive ReloadKind
  | sessions
  | windows
  | panes
  | clients
deriving DecidableEq, Repr

/-- maskNotWinPanes is the 32-bit complement of WINDOWS ||| PANES, the mask
the windows block ands into the local refresh copy. -/
def maskNotWinPanes : Nat := 0xFFFFFFFC

/-- maskNotPanes is the 32-bit complement of PANES. -/
def maskNotPanes : Nat := 0xFFFFFFFE

/-- maskNotClients is the 32-bit complement of CLIENTS. -/
def maskNotClients : Nat := 0xFFFFFFF7

/-- runClosuresFrom models the closure-invocation loop on the success
path: closures run in order, stopping at the first non-zero result; r0 is
the value r holds when the loop is entered. -/
def runClosuresFrom {cl : Type} (inv : cl → Int) (r0 : Int) : List cl → Int
  | [] => r0
  | c :: cs =>
    let r := inv c
    if r ≠ 0 then r else runClosuresFrom inv r cs

/-- refreshExit models the exit label: any remaining local refresh bits
are OR-ed back into the refresh field, and the closure queue is cleared. -/
def refreshExit {sig cl : Type} (p : Nat) (r : Int) (t : RefreshSt sig cl) :
    RefreshSt sig cl × Int :=
  ({ t with refresh := if p ≠ 0 then t.refresh ||| p else t.refresh, closures := [] }, r)

/-- refreshFinish models the tail of the callback after the four blocks:
the closure loop runs, then the exit label. -/
def refreshFinish {sig cl : Type} (inv : cl → Int) (p : Nat) (r : Int)
    (t : RefreshSt sig cl) (tr : List ReloadKind) :
    RefreshSt sig cl × Int × List ReloadKind :=
  let r' := runClosuresFrom inv r t.closures
  let out := refreshExit p r' t
  (out.1, out.2, tr)

/-- refreshErr models a jump to the exit label with a negative reload
result. -/
def refreshErr {sig cl : Type} (p : Nat) (r : Int) (t : RefreshSt sig cl)
    (tr : List ReloadKind) : RefreshSt sig cl × Int × List ReloadKind :=
  let out := refreshExit p r t
  (out.1, out.2, tr)

/-- refreshStepC models the clients block. -/
def refreshStepC {sig cl : Type} (rc : RefreshSt sig cl → RefreshSt sig cl × Int)
    (inv : cl → Int) (p : Nat) (r : Int) (t : RefreshSt sig cl) (tr : List ReloadKind) :
    RefreshSt sig cl × Int × List ReloadKind :=
  if p &&& WTC_TMUX_REFRESH_CLIENTS ≠ 0 then
    let out := rc t
    if out.2 < 0 then refreshErr p out.2 out.1 (tr ++ [.clients])
    else refreshFinish inv (p &&& maskNotClients) out.2 out.1 (tr ++ [.clients])
  else refreshFinish inv p r t tr

/-- refreshStepP models the panes block followed by the clients block. -/
def refreshStepP {sig cl : Type} (rp rc : RefreshSt sig cl → RefreshSt sig cl × Int)
    (inv : cl → Int) (p : Nat) (r : Int) (t : RefreshSt sig cl) (tr : List ReloadKind) :
    RefreshSt sig cl × Int × List ReloadKind :=
  if p &&& WTC_TMUX_REFRESH_PANES ≠ 0 then
    let out := rp t
    if out.2 < 0 then refreshErr p out.2 out.1 (tr ++ [.panes])
    else refreshStepC rc inv (p &&& maskNotPanes) out.2 out.1 (tr ++ [.panes])
  else refreshStepC rc inv p r t tr

/-- refreshStepW models the windows block followed by the remaining
blocks. -/
def refreshStepW {sig cl : Type} (rw rp rc : RefreshSt sig cl → RefreshSt sig cl × Int)
    (inv : cl → Int) (p : Nat) (r : Int) (t : RefreshSt sig cl) (tr : List ReloadKind) :
    RefreshSt sig cl × Int × List ReloadKind :=
  if p &&& WTC_TMUX_REFRESH_WINDOWS ≠ 0 then
    let out := rw t
    if out.2 < 0 then refreshErr p out.2 out.1 (tr ++ [.windows])
    else refreshStepP rp rc inv (p &&& maskNotWinPanes) out.2 out.1 (tr ++ [.windows])
  else refreshStepP rp rc inv p r t tr

/-- refreshStepS models the sessions block followed by the remaining
blocks; on success the whole local copy is zeroed. -/
def refreshStepS {sig cl : Type} (rs rw rp rc : RefreshSt sig cl → RefreshSt sig cl × Int)
    (inv : cl → Int) (p : Nat) (r : Int) (t : RefreshSt sig cl) (tr : List ReloadKind) :
    RefreshSt sig cl × Int × List ReloadKind :=
  if p &&& WTC_TMUX_REFRESH_SESSIONS ≠ 0 then
    let out := rs t
    if out.2 < 0 then refreshErr p out.2 out.1 (tr ++ [.sessions])
    else refreshStepW rw rp rc inv 0 out.2 out.1 (tr ++ [.sessions])
  else refreshStepW rw rp rc inv p r t tr

/-- wtc_tmux_refresh_cb models the whole callback: dr is the result of the
pipe drain (a negative value is returned at once), the refresh field is
snapshot into the local copy and zeroed, and the four blocks run.  The
third component is the ghost trace of the reloads that executed, in
order. -/
def wtc_tmux_refresh_cb {sig cl : Type} (rs rw rp rc : RefreshSt sig cl → RefreshSt sig cl × Int)
    (inv : cl → Int) (dr : Int) (t0 : RefreshSt sig cl) :
    RefreshSt sig cl × Int × List ReloadKind :=
  if dr < 0 then (t0, dr, [])
  else refreshStepS rs rw rp rc inv t0.refresh dr { t0 with refresh := 0 } []

/-- wtc_tmux_queue_refresh models the queueing helper: the flags are OR-ed
into the refresh field (the pipe write that wakes the loop is not part of
the state). -/
def wtc_tmux_queue_refresh (refresh flags : Nat) : Nat := refresh ||| flags

/- ======================================================================
   process_cmd_begin (src/src/tmux_parse.c, lines 1128-1271)

   A six-phase character machine over the ring contents.  Phase 0 matches
   the current literal (initially "%begin ", later "%end " or "%error ");
   phases 1 to 3 read the three integer guard fields, comparing the
   terminator fields against the begin fields recorded under guard index
   0; phase 4 identifies a candidate line head after a newline; phase 5
   skips to the end of an unknown line, recording the payload length.
   NUL bytes are skipped but still counted in the position.  The C sets
   phase 5 on a guard mismatch but still executes the accumulation that
   follows the check, and never resets the terminator-side accumulators
   between candidate lines; the model reproduces both behaviours exactly.
   ====================================================================== -/

inductive TermLit
  | beginLit
  | endLit
  | errorLit
deriving DecidableEq, Repr

/-- litChars gives the characters of the literal each TermLit stands for,
matching the begin, end and error arrays of the C code. -/
def litChars : TermLit → List Char
  | .beginLit => "%begin ".toList
  | .endLit => "%end ".toList
  | .errorLit => "%error ".toList

structure PcbSt where
  start : Nat
  len : Nat
  guard : Bool
  time0 : Int
  time1 : Int
  cmd0 : Int
  cmd1 : Int
  flags0 : Int
  flags1 : Int
  phase : Nat
  index : Nat
  lit : TermLit
deriving DecidableEq, Repr

inductive PcbOut
  | invalid
  | needMore
  | reply (start len : Nat) (isErr : Bool) (consumed : Nat)
deriving DecidableEq, Repr

/-- pcbGetTime reads the guard-indexed time accumulator. -/
def pcbGetTime (st : PcbSt) : Int := if st.guard then st.time1 else st.time0

/-- pcbSetTime writes the guard-indexed time accumulator. -/
def pcbSetTime (st : PcbSt) (v : Int) : PcbSt :=
  if st.guard then { st with time1 := v } else { st with time0 := v }

/-- pcbGetCmd reads the guard-indexed cmd accumulator. -/
def pcbGetCmd (st : PcbSt) : Int := if st.guard then st.cmd1 else st.cmd0

/-- pcbSetCmd writes the guard-indexed cmd accumulator. -/
def pcbSetCmd (st : PcbSt) (v : Int) : PcbSt :=
  if st.guard then { st with cmd1 := v } else { st with cmd0 := v }

/-- pcbGetFlags reads the guard-indexed flags accumulator. -/
def pcbGetFlags (st : PcbSt) : Int := if st.guard then st.flags1 else st.flags0

/-- pcbSetFlags writes the guard-indexed flags accumulator. -/
def pcbSetFlags (st : PcbSt) (v : Int) : PcbSt :=
  if st.guard then { st with flags1 := v } else { st with flags0 := v }

/-- pcbPhase5 models case 5 of the switch: an unknown line is skipped; its
closing newline records the running payload length and hands control back
to phase 4. -/
def pcbPhase5 (st : PcbSt) (c : Char) (pos : Nat) : PcbSt :=
  if c = '\n' then { st with len := pos + 1 - st.start, phase := 4, index := 0 }
  else { st with phase := 5 }

/-- pcbStep models one execution of the switch body on a non-NUL character
at position pos: inl is the updated state, inr an early return. -/
def pcbStep (st : PcbSt) (c : Char) (pos : Nat) : PcbSt ⊕ PcbOut :=
  match st.phase with
  | 0 =>
    if (litChars st.lit).get? st.index ≠ some c then
      if st.start = 0 then .inr .invalid
      else
        let st1 := { st with phase := 5, index := st.index + 1 }
        if st1.index = (litChars st.lit).length then .inl { st1 with phase := 1 }
        else .inl st1
    else
      let st1 := { st with index := st.index + 1 }
      if st1.index = (litChars st.lit).length then .inl { st1 with phase := 1 }
      else .inl st1
  | 1 =>
    if c = ' ' then
      if st.start ≠ 0 ∧ st.time1 ≠ st.time0 then .inl { st with phase := 5 }
      else .inl { st with phase := 2 }
    else
      if (c.toNat < 48 ∨ 57 < c.toNat) ∧ st.start = 0 then .inr .invalid
      else
        let st1 := if c.toNat < 48 ∨ 57 < c.toNat then { st with phase := 5 } else st
        .inl (pcbSetTime st1 (10 * pcbGetTime st1 + digitVal c))
  | 2 =>
    if c = ' ' then
      if st.start ≠ 0 ∧ st.cmd1 ≠ st.cmd0 then .inl { st with phase := 5 }
      else .inl { st with phase := 3 }
    else
      if (c.toNat < 48 ∨ 57 < c.toNat) ∧ st.start = 0 then .inr .invalid
      else
        let st1 := if c.toNat < 48 ∨ 57 < c.toNat then { st with phase := 5 } else st
        .inl (pcbSetCmd st1 (10 * pcbGetCmd st1 + digitVal c))
  | 3 =>
    if c = '\n' then
      if st.start = 0 then
        .inl { st with guard := true, index := 0, phase := 4, start := pos + 1 }
      else if st.flags1 ≠ st.flags0 then
        .inl { st with index := 0, phase := 4 }
      else
        .inr (.reply st.start st.len (st.lit = TermLit.errorLit) (pos + 1))
    else
      if (c.toNat < 48 ∨ 57 < c.toNat) ∧ st.start = 0 then .inr .invalid
      else
        let st1 := if c.toNat < 48 ∨ 57 < c.toNat then { st with phase := 5 } else st
        .inl (pcbSetFlags st1 (10 * pcbGetFlags st1 + digitVal c))
  | 4 =>
    let e := (litChars TermLit.endLit).get? st.index
    let er := (litChars TermLit.errorLit).get? st.index
    if some c = e ∧ some c = er then .inl { st with index := st.index + 1 }
    else if some c = e then .inl { st with lit := .endLit, phase := 0, index := st.index + 1 }
    else if some c = er then .inl { st with lit := .errorLit, phase := 0, index := st.index + 1 }
    else .inl (pcbPhase5 st c pos)
  | _ => .inl (pcbPhase5 st c pos)

/-- pcbRun iterates pcbStep over the ring contents, skipping NUL bytes
while still counting their positions, exactly as SHL_RING_ITERATE together
with the continue on NUL does; falling off the end of the data is the
return 0 of the C, reported as needMore. -/
def pcbRun : List Char → Nat → PcbSt → PcbOut
  | [], _, _ => .needMore
  | c :: rest, pos, st =>
    if c = '\x00' then pcbRun rest (pos + 1) st
    else
      match pcbStep st c pos with
      | .inl st' => pcbRun rest (pos + 1) st'
      | .inr out => out

/-- pcbInit is the initial machine state of process_cmd_begin: phase 0
matching the begin literal with guard index 0 and all accumulators zero. -/
def pcbInit : PcbSt :=
  { start := 0, len := 0, guard := false, time0 := 0, time1 := 0, cmd0 := 0, cmd1 := 0
    flags0 := 0, flags1 := 0, phase := 0, index := 0, lit := .beginLit }

/-- process_cmd_begin models the C function of the same name on the given
ring contents: either an early -EINVAL (invalid), the need-more-data
return 0 that consumes nothing (needMore), or a delivered reply carrying
the arguments of the pending-reply callback and the number of bytes popped
from the ring. -/
def process_cmd_begin (input : List Char) : PcbOut :=
  pcbRun input 0 pcbInit

/-- c2Input is a ring content whose begin guards are (10, 0, 0) and whose
two candidate terminators carry guards (1, 0, 0) and (0, 0, 0): neither
matches the begin line. -/
def c2Input : List Char :=
  ("%begin 10 0 0\nhello\n%end 1 0 0\n%end 0 0 0\n").toList

/-- c1wRs is a concrete sessions reload oracle used by the witness of the
refresh-callback theorem: it leaves the state unchanged and fails with
-5. -/
def c1wRs (t : RefreshSt Unit Unit) : RefreshSt Unit Unit × Int := (t, -5)

/-- c1wId is a concrete reload oracle that leaves the state unchanged and
succeeds. -/
def c1wId (t : RefreshSt Unit Unit) : RefreshSt Unit Unit × Int := (t, 0)

/-- c1wInv is a closure-invocation oracle that always succeeds. -/
def c1wInv (_ : Unit) : Int := 0

/-- c1wSt is a refresh state with the Sessions and Clients flags pending
and no queued closures. -/
def c1wSt : RefreshSt Unit Unit := { refresh := 12, closures := [], inner := () }

/- ======================================================================
   Helper lemmas
   ====================================================================== -/

lemma wrap32_eq_self {x : Int} (h0 : 0 ≤ x) (h1 : x < 2 ^ 31) : wrap32 x = x := by
  unfold wrap32
  rw [Int.emod_eq_of_lt (by omega) (by omega)]
  omega

lemma decFold_ge (s : List Char) : ∀ a : Int, 0 ≤ a → (∀ c ∈ s, 48 ≤ c.toNat) →
    a ≤ s.foldl (fun x c => 10 * x + digitVal c) a := by
  induction s with
  | nil => intro a _ _; simp
  | cons c s ih =>
    intro a ha hd
    have hc : (48 : Nat) ≤ c.toNat := hd c (by simp)
    have h1 : a ≤ 10 * a + digitVal c := by unfold digitVal; omega
    have h0 : (0 : Int) ≤ 10 * a + digitVal c := by unfold digitVal; omega
    have h2 := ih (10 * a + digitVal c) h0 (fun d hds => hd d (by simp [hds]))
    simpa using le_trans h1 h2

lemma parseintLoop_eq (s : List Char) : ∀ ret : Int, 0 ≤ ret →
    (∀ c ∈ s, 48 ≤ c.toNat ∧ c.toNat ≤ 57) →
    s.foldl (fun x c => 10 * x + digitVal c) ret < 2 ^ 31 →
    parseintLoop s ret = s.foldl (fun x c => 10 * x + digitVal c) ret := by
  induction s with
  | nil => intro ret _ _ _; rfl
  | cons c s ih =>
    intro ret hret hd hbound
    obtain ⟨hc1, hc2⟩ := hd c (by simp)
    have hnd : ¬(c.toNat < 48 ∨ 57 < c.toNat) := by omega
    have h0 : (0 : Int) ≤ 10 * ret + digitVal c := by unfold digitVal; omega
    have hb' : (c :: s).foldl (fun x c => 10 * x + digitVal c) ret
        = s.foldl (fun x c => 10 * x + digitVal c) (10 * ret + digitVal c) := by
      simp
    have hle := decFold_ge s (10 * ret + digitVal c) h0
      (fun d hds => (hd d (by simp [hds])).1)
    have hlt : 10 * ret + digitVal c < 2 ^ 31 := by
      rw [hb'] at hbound; omega
    rw [parseintLoop, if_neg hnd]
    simp only []
    rw [wrap32_eq_self h0 hlt, if_neg (by omega), hb']
    exact ih _ h0 (fun d hds => hd d (by simp [hds])) (by rw [hb'] at hbound; exact hbound)

lemma parseintLoop_nondigit (s : List Char) : ∀ ret : Int,
    (∃ c ∈ s, c.toNat < 48 ∨ 57 < c.toNat) → parseintLoop s ret = -1 := by
  induction s with
  | nil => rintro ret ⟨c, hc, _⟩; cases hc
  | cons c s ih =>
    rintro ret ⟨d, hd, hbad⟩
    by_cases hc : c.toNat < 48 ∨ 57 < c.toNat
    · rw [parseintLoop, if_pos hc]
    · have hds : d ∈ s := by
        rcases List.mem_cons.mp hd with h | h
        · subst h; exact absurd hbad hc
        · exact h
      rw [parseintLoop, if_neg hc]
      simp only []
      split
      · rfl
      · exact ih _ ⟨d, hds, hbad⟩

lemma sigcReapLoop_wpAlwaysFail : ∀ fuel call : Nat, ∀ refreshed : Bool,
    sigcReapLoop wpAlwaysFail fuel call 0 [] refreshed = none := by
  intro fuel
  induction fuel with
  | zero => intro call refreshed; rfl
  | succ n ih =>
    intro call refreshed
    rw [sigcReapLoop]
    simp only [wpAlwaysFail, sigcScan]
    norm_num
    exact ih (call + 1) refreshed

lemma ccLaunchInsertLoop_cons (tmp c : CcRec) (rest : List CcRec) :
    ∀ fuel kills : Nat, ccLaunchInsertLoop tmp (c :: rest) fuel kills = none := by
  intro fuel
  induction fuel with
  | zero => intro kills; rfl
  | succ n ih =>
    intro kills
    cases htmp : tmp.temp <;> simp only [ccLaunchInsertLoop, htmp] <;>
      simp only [List.cons_ne_nil, if_false, Bool.false_eq_true, Bool.true_eq_false,
        ite_false, ite_true, reduceIte] <;> exact ih _

/- ======================================================================
   Claim theorems
   ====================================================================== -/

/-- Claim C9 (code bug): the claim says every wtc_tmux object returned by
wtc_tmux_new has reference count 1, timeout 10000 milliseconds, width 80
and height 24.  The reference count, width and height are as claimed, but
the current refactored tmux.c initializes timeout to 5000, contradicting
the claimed value, the documented default of 10,000 in tmux.h, and the
superseded monolithic tmux.c (which wrote 10000). -/
theorem c9_wtc_tmux_new_timeout_bug :
    wtc_tmux_new.ref = 1 ∧ wtc_tmux_new.timeout = 5000 ∧
    wtc_tmux_new.timeout ≠ 10000 ∧
    wtc_tmux_new.w = 80 ∧ wtc_tmux_new.h = 24 :=
  ⟨rfl, rfl, by decide, rfl, rfl⟩

/-- Claim C7 (code bug): the claim says that dropping the last reference
(count 1 on entry) runs the teardown of the control client.  In the code
the guard of wtc_tmux_cc_unref tests the post-decrement value, which is
the old, non-zero count, so the function returns early for every positive
count: the count does drop from 1 to 0 but the teardown never runs, and is
in fact unreachable for any input.  The increment side of the claim does
hold. -/
theorem c7_cc_unref_never_tears_down :
    (∀ ref : Nat, (wtc_tmux_cc_unref ref).teardown = false) ∧
    wtc_tmux_cc_unref 1 = ⟨0, false⟩ ∧
    (∀ ref : Nat, wtc_tmux_cc_ref (ref + 1) = ref + 2) := by
  refine ⟨?_, by decide, ?_⟩
  · intro ref
    by_cases h : ref = 0 <;> simp [wtc_tmux_cc_unref, h]
  · intro ref
    simp [wtc_tmux_cc_ref]

/-- Claim C6 (code bug): the claim says wtc_tmux_cc_launch terminates for
every non-empty CC list.  The kill-temp walk never advances its cursor, so
whenever the list holds at least two CCs the while loop spins forever and
the launch never returns (first conjunct: no amount of fuel makes the
insertion finish on a two-element list).  On a one-element list the loop
does exit after sending kill-session through a temp head, linking the new
CC at the tail (second conjunct), and the constructed CC does get
reference count 2 and the compensate flag (third conjunct). -/
theorem c6_cc_launch_insert_nonterminating :
    (∀ fuel : Nat, ccLaunchInsert fuel [⟨false⟩, ⟨false⟩] ⟨false⟩ = none) ∧
    ccLaunchInsert 1 [⟨true⟩] ⟨false⟩ = some ([⟨true⟩, ⟨false⟩], 1) ∧
    (∀ sid : Nat, (wtc_tmux_cc_launch_init (some sid)).ref = 2 ∧
      (wtc_tmux_cc_launch_init (some sid)).compensate = true) := by
  refine ⟨?_, by decide, ?_⟩
  · intro fuel
    rw [ccLaunchInsert, ccLaunchInsertLoop_cons]
  · intro sid
    exact ⟨rfl, rfl⟩

/-- Claim C5 (code bug): the claim says the reap loop of sigc_cb
terminates whenever waitpid returns 0 or fails.  The while header keeps
looping on every non-zero waitpid result, and the error test in the body
reads the stale pipe-drain result r instead of the waitpid result, so a
failing waitpid (for example ECHILD once another caller has stolen the
reap, which the code comment itself says can happen) keeps the loop
spinning forever: the first conjunct shows no amount of fuel finishes it.
The second conjunct shows the refresh condition the code does implement:
reaping the only CC queues a Sessions refresh even when that CC is the
temp one, i.e. the trigger is "the list became empty", not "the last
non-temp CC disappeared". -/
theorem c5_sigc_reap_loop_nonterminating :
    (∀ fuel : Nat, sigc_cb_model 0 wpAlwaysFail fuel [] = none) ∧
    sigc_cb_model 0 wpTempOnly 2 [⟨7, true⟩] = some ⟨[], true, 0⟩ := by
  refine ⟨?_, by decide⟩
  intro fuel
  rw [sigc_cb_model, if_neg (by norm_num)]
  exact sigcReapLoop_wpAlwaysFail fuel 0 false

/-- Claim C8 (code bug): the claim (and the documentation of the timeout
setting in tmux.h) says a timeout of 0 means no timeout, so the bounded
waits never terminate the child.  Both loops pass tmux->timeout straight
to poll, and poll treats a third argument of 0 as "return immediately":
with timeout 0 and a child that has not exited, wtc_tmux_waitpid falls out
of its loop on the first empty poll and SIGKILLs the child no matter how
many bytes the self-pipe held (first conjunct), and the reply-wait loop of
wtc_tmux_cc_exec gives up immediately, returning 0 with the handled latch
still false (second conjunct).  Waiting forever would have required a
negative poll argument (third conjunct). -/
theorem c8_timeout_zero_kills :
    (∀ bytes : Nat, (wtc_tmux_waitpid_model 0 bytes).map WaitpidOut.killed = some true) ∧
    cc_exec_poll_model 0 = some (false, 0) ∧
    wtc_tmux_waitpid_model (-1) 0 = none := by
  refine ⟨?_, by decide, by decide⟩
  intro bytes
  cases bytes <;> rfl

/-- Claim C2 (code bug): the claim says process_cmd_begin delivers a reply
only when it finds a terminator line whose three guard fields equal those
of the opening begin line.  The machine never resets the terminator-side
guard accumulators between candidate lines, so after a mismatching
candidate the digits of later candidates concatenate onto the stale value:
on c2Input, whose begin guards are (10, 0, 0) and whose candidate
terminators carry (1, 0, 0) and then (0, 0, 0), the concatenation makes
the second candidate pass the comparison and the reply is delivered (first
conjunct: payload offset 14, length 17 covering "hello" and the first
candidate line, error flag false, all 42 bytes popped) even though no
terminator line matches the begin guards.  The remaining conjuncts show
the parts of the claim the code does honour: an incomplete envelope
consumes nothing (needMore), a first matching terminator is reported
correctly, and an inner begin line is skipped as unknown payload. -/
theorem c2_guard_mismatch_reply :
    process_cmd_begin c2Input = .reply 14 17 false 42 ∧
    process_cmd_begin ("%begin 10 0 0\nhello\n").toList = .needMore ∧
    process_cmd_begin ("%begin 1 2 3\nout\n%end 1 2 3\n").toList = .reply 13 4 false 28 ∧
    process_cmd_begin ("%begin 1 2 3\nout\n%error 1 2 3\n").toList = .reply 13 4 true 30 ∧
    process_cmd_begin ("%begin 1 2 3\na\n%begin 9 9 9\nb\n%end 1 2 3\n").toList
      = .reply 13 17 false 41 := by
  refine ⟨?_, ?_, ?_, ?_, ?_⟩ <;> decide

/-- Claim C10 counterexample: the all-digit string 4294967296 overflows an
int, yet parseint returns the non-negative value 0 for it, because the
wrapped accumulator never passes through a negative value: the claim that
no spurious non-negative value is ever returned for an overflowing input
is false. -/
theorem c10_overflow_counterexample :
    parseint overflowDigits = 0 ∧
    (2 : Int) ^ 31 ≤ decValue overflowDigits ∧
    overflowDigits ≠ [] ∧
    (∀ c ∈ overflowDigits, 48 ≤ c.toNat ∧ c.toNat ≤ 57) := by
  refine ⟨by decide, by decide, by decide, by decide⟩

/-- Claim C10 as amended: parseint returns the decimal value of a
non-empty all-digit string (digit codes 48 to 57, i.e. the characters 0
through 9) whose value fits in an int, and -1 for the empty string or any
string containing a non-digit; for all-digit overflowing strings it
returns -1 whenever some wrapped intermediate value is negative, but it
can return a spurious non-negative value when the wrap skips the negative
range, e.g. 0 for the string 4294967296. -/
theorem c10_parseint_amended (s : List Char) :
    (s = [] → parseint s = -1) ∧
    ((∃ c ∈ s, c.toNat < 48 ∨ 57 < c.toNat) → parseint s = -1) ∧
    (s ≠ [] → (∀ c ∈ s, 48 ≤ c.toNat ∧ c.toNat ≤ 57) → decValue s < 2 ^ 31 →
      parseint s = decValue s) := by
  refine ⟨?_, ?_, ?_⟩
  · rintro rfl; rfl
  · intro h
    match s with
    | [] =>
      rcases h with ⟨c, hc, _⟩
      cases hc
    | c :: s => exact parseintLoop_nondigit (c :: s) 0 h
  · intro hne hd hb
    match s with
    | [] => exact absurd rfl hne
    | c :: s => exact parseintLoop_eq (c :: s) 0 le_rfl hd hb

/-- Claim C10 witness: concrete instances of the amended theorem, applying
it at the inputs 42, 4x and the empty string. -/
theorem c10_parseint_amended_witness :
    parseint ['4', '2'] = 42 ∧ parseint ['4', 'x'] = -1 ∧ parseint [] = -1 := by
  refine ⟨?_, ?_, ?_⟩
  · have h := (c10_parseint_amended ['4', '2']).2.2 (by decide) (by decide) (by decide)
    rw [h]; decide
  · exact (c10_parseint_amended ['4', 'x']).2.1 ⟨'x', by decide, by decide⟩
  · exact (c10_parseint_amended []).1 rfl

/-- escChar_length: each escaped character occupies exactly its computed
cost in the buffer. -/
lemma escChar_length (c : Char) : (escChar c).length = quoteCost c := by
  unfold escChar quoteCost
  split_ifs <;> rfl

lemma escToken_length (t : List Char) : (escToken t).length = (t.map quoteCost).sum := by
  induction t with
  | nil => rfl
  | cons c t ih =>
    have hstep : escToken (c :: t) = escChar c ++ escToken t := rfl
    rw [hstep]
    simp [ih, escChar_length]

lemma ccExecLen_shift (cmds : List (List Char)) : ∀ init : Nat,
    cmds.foldl (fun len t => len + 3 + (t.map quoteCost).sum) init = init + ccExecLen cmds := by
  induction cmds with
  | nil => intro init; simp [ccExecLen]
  | cons t rest ih =>
    intro init
    have h1 : ccExecLen (t :: rest)
        = (0 + 3 + (t.map quoteCost).sum) + ccExecLen rest := by
      rw [ccExecLen]
      simp only [List.foldl_cons]
      exact ih _
    simp only [List.foldl_cons]
    rw [ih, h1]
    omega

lemma ccExecBuild_false_length (cmds : List (List Char)) :
    (ccExecBuild cmds false).length = ccExecLen cmds := by
  induction cmds with
  | nil => rfl
  | cons t rest ih =>
    have h1 : ccExecLen (t :: rest) = 3 + (t.map quoteCost).sum + ccExecLen rest := by
      rw [ccExecLen]
      simp only [List.foldl_cons]
      rw [ccExecLen_shift]
    simp only [ccExecBuild, ite_false, Bool.false_eq_true, reduceIte]
    simp [escToken_length, h1]
    omega

lemma ccExecBuild_true_length (t : List Char) (rest : List (List Char)) :
    (ccExecBuild (t :: rest) true).length + 1 = ccExecLen (t :: rest) := by
  have h1 : ccExecLen (t :: rest) = 3 + (t.map quoteCost).sum + ccExecLen rest := by
    rw [ccExecLen]
    simp only [List.foldl_cons]
    rw [ccExecLen_shift]
  simp only [ccExecBuild, ite_true, reduceIte]
  simp [escToken_length, ccExecBuild_false_length, h1]
  omega

lemma ccExecBuild_cons_eq (a : List Char) (rest : List (List Char)) :
    quotedTok a ++ ccExecBuild rest false
      = List.intercalate [' '] ((a :: rest).map quotedTok) := by
  induction rest generalizing a with
  | nil =>
    simp [ccExecBuild, List.intercalate, quotedTok]
  | cons b r ih =>
    have h2 : List.intercalate [' '] (List.map quotedTok (a :: b :: r))
        = quotedTok a ++ [' '] ++ List.intercalate [' '] (List.map quotedTok (b :: r)) := by
      simp [List.intercalate, List.intersperse]
    rw [h2, ← ih b]
    simp [ccExecBuild, quotedTok]

/-- Claim C4 counterexample: for the empty command array, the claim (as
stated, quantified over every command array) demands a line consisting of
just the terminating newline, but the computed length is 0 so the write
loop transmits nothing. -/
theorem c4_empty_array_counterexample :
    ccExecWritten [] = [] ∧ quotedLine [] = ['\n'] ∧ ccExecWritten [] ≠ quotedLine [] := by
  refine ⟨by decide, by decide, by decide⟩

/-- Claim C4 as amended: for every non-empty command array whose tokens
contain no NUL byte, the bytes written by wtc_tmux_cc_exec form exactly
one line: the tokens each wrapped in double quotes and separated by single
spaces, with every double quote escaped as backslash-quote and every
newline escaped as backslash-n, terminated by a single newline (the NUL
condition records that the model represents C strings as NUL-free
character lists; the empty array writes nothing). -/
theorem c4_cc_exec_quoting_amended (cmds : List (List Char)) (hne : cmds ≠ [])
    (hnul : ∀ t ∈ cmds, '\x00' ∉ t) :
    ccExecWritten cmds = quotedLine cmds := by
  match cmds with
  | [] => exact absurd rfl hne
  | t :: rest =>
    unfold ccExecWritten ccExecBuf quotedLine
    rw [← ccExecBuild_true_length t rest]
    have hlen : (ccExecBuild (t :: rest) true ++ ['\n']).length
        = (ccExecBuild (t :: rest) true).length + 1 := by simp
    rw [← hlen]
    rw [List.take_length]
    have hbuild : ccExecBuild (t :: rest) true = quotedTok t ++ ccExecBuild rest false := by
      show (if true then ([] : List Char) else [' ']) ++ ('"' :: escToken t ++ ['"'])
          ++ ccExecBuild rest false = _
      simp [quotedTok]
    rw [hbuild, ccExecBuild_cons_eq]

/-- Claim C4 witness: the amended theorem applied at the quoting example of
the specification, yielding the exact line the claim displays. -/
theorem c4_cc_exec_quoting_amended_witness :
    exCmds ≠ [] ∧
    ccExecWritten exCmds = ("\"display-message\" \"-p\" \"a \\\"b\\\" c\\nd\"\n").toList := by
  refine ⟨by decide, ?_⟩
  rw [c4_cc_exec_quoting_amended exCmds (by decide) (by decide)]
  decide

/-- Claim C3: during a sessions reload a newly observed session is always
inserted into the model (first conjunct: the created sessions are exactly
the unmarked observed entries), but a NewSession closure is enqueued only
for those whose name differs from the reserved temp session name (the
closure list filters the temp name away); the temp control client is
launched exactly when the sessions collection ends up empty (second
conjunct), and launching with no session runs tmux with
new-session -s on the temp name and builds a CC with temp true and no
session reference (third conjunct). -/
theorem c3_reload_sessions_temp :
    (∀ pairs : List (Int × String),
      sessCreateLoop pairs =
        ((pairs.filter (fun p => p.1 ≠ -1)).map (fun p => (⟨p.1.toNat⟩ : SessRec)),
         (pairs.filter (fun p => p.1 ≠ -1 ∧ p.2 ≠ WTC_TMUX_TEMP_SESSION_NAME)).map
           (fun p => SessClosure.newSession p.1.toNat))) ∧
    (∀ (existing : List SessRec) (sids : List Int) (names : List String),
      (reloadSessionsModel existing sids names).2.2 = true ↔
        (reloadSessionsModel existing sids names).1 = []) ∧
    wtc_tmux_cc_launch_init none =
      { args := ["-C", "new-session", "-s", WTC_TMUX_TEMP_SESSION_NAME],
        temp := true, session := none, ref := 2, compensate := true } := by
  refine ⟨?_, ?_, rfl⟩
  · intro pairs
    induction pairs with
    | nil => rfl
    | cons p rest ih =>
      obtain ⟨sid, name⟩ := p
      by_cases h1 : sid = -1
      · simp [sessCreateLoop, h1, ih, List.filter_cons]
      · by_cases h2 : name = WTC_TMUX_TEMP_SESSION_NAME <;>
          simp [sessCreateLoop, h1, h2, ih, List.filter_cons]
  · intro existing sids names
    simp [reloadSessionsModel, List.isEmpty_iff]

/-- land_ne_zero_left: a value with a set bit is non-zero. -/
lemma land_ne_zero_left {p k : Nat} (h : p &&& k ≠ 0) : p ≠ 0 := by
  intro h0
  subst h0
  simp at h

lemma landWP_one (p : Nat) : p &&& maskNotWinPanes &&& WTC_TMUX_REFRESH_PANES = 0 := by
  have h : (maskNotWinPanes &&& WTC_TMUX_REFRESH_PANES : Nat) = 0 := by decide
  rw [Nat.land_assoc, h]
  simp

lemma landWP_eight (p : Nat) :
    p &&& maskNotWinPanes &&& WTC_TMUX_REFRESH_CLIENTS = p &&& WTC_TMUX_REFRESH_CLIENTS := by
  have h : (maskNotWinPanes &&& WTC_TMUX_REFRESH_CLIENTS : Nat) = WTC_TMUX_REFRESH_CLIENTS := by
    decide
  rw [Nat.land_assoc, h]

lemma landP_eight (p : Nat) :
    p &&& maskNotPanes &&& WTC_TMUX_REFRESH_CLIENTS = p &&& WTC_TMUX_REFRESH_CLIENTS := by
  have h : (maskNotPanes &&& WTC_TMUX_REFRESH_CLIENTS : Nat) = WTC_TMUX_REFRESH_CLIENTS := by
    decide
  rw [Nat.land_assoc, h]

lemma p16_wp_zero {p : Nat} (h16 : p < 16) (h4 : p &&& WTC_TMUX_REFRESH_SESSIONS = 0)
    (h8 : p &&& WTC_TMUX_REFRESH_CLIENTS = 0) : p &&& maskNotWinPanes = 0 := by
  interval_cases p <;> revert h4 h8 <;> decide

lemma p16_wp_eight {p : Nat} (h16 : p < 16) (h4 : p &&& WTC_TMUX_REFRESH_SESSIONS = 0)
    (h8 : p &&& WTC_TMUX_REFRESH_CLIENTS ≠ 0) : p &&& maskNotWinPanes = 8 := by
  interval_cases p <;> revert h4 h8 <;> decide

lemma p16_p_zero {p : Nat} (h16 : p < 16) (h4 : p &&& WTC_TMUX_REFRESH_SESSIONS = 0)
    (h2 : p &&& WTC_TMUX_REFRESH_WINDOWS = 0)
    (h8 : p &&& WTC_TMUX_REFRESH_CLIENTS = 0) : p &&& maskNotPanes = 0 := by
  interval_cases p <;> revert h4 h2 h8 <;> decide

lemma p16_p_eight {p : Nat} (h16 : p < 16) (h4 : p &&& WTC_TMUX_REFRESH_SESSIONS = 0)
    (h2 : p &&& WTC_TMUX_REFRESH_WINDOWS = 0)
    (h8 : p &&& WTC_TMUX_REFRESH_CLIENTS ≠ 0) : p &&& maskNotPanes = 8 := by
  interval_cases p <;> revert h4 h2 h8 <;> decide

lemma p16_zero {p : Nat} (h16 : p < 16) (h4 : p &&& WTC_TMUX_REFRESH_SESSIONS = 0)
    (h2 : p &&& WTC_TMUX_REFRESH_WINDOWS = 0) (h1 : p &&& WTC_TMUX_REFRESH_PANES = 0)
    (h8 : p &&& WTC_TMUX_REFRESH_CLIENTS = 0) : p = 0 := by
  interval_cases p <;> revert h4 h2 h1 h8 <;> decide

lemma p16_eight {p : Nat} (h16 : p < 16) (h4 : p &&& WTC_TMUX_REFRESH_SESSIONS = 0)
    (h2 : p &&& WTC_TMUX_REFRESH_WINDOWS = 0) (h1 : p &&& WTC_TMUX_REFRESH_PANES = 0)
    (h8 : p &&& WTC_TMUX_REFRESH_CLIENTS ≠ 0) : p = 8 := by
  interval_cases p <;> revert h4 h2 h1 h8 <;> decide

lemma eight_c_zero : (8 : Nat) &&& maskNotClients = 0 := by decide

lemma refreshErr_eq {sig cl : Type} (p : Nat) (r : Int) (t : RefreshSt sig cl)
    (tr : List ReloadKind) (hp : p ≠ 0) :
    refreshErr p r t tr = ({ t with refresh := t.refresh ||| p, closures := [] }, r, tr) := by
  simp [refreshErr, refreshExit, hp]

lemma refreshFinish_zero {sig cl : Type} (inv : cl → Int) (r : Int) (t : RefreshSt sig cl)
    (tr : List ReloadKind) :
    refreshFinish inv 0 r t tr
      = ({ t with closures := [] }, runClosuresFrom inv r t.closures, tr) := by
  simp [refreshFinish, refreshExit]

lemma refreshStepS_err {sig cl : Type} (rs rw rp rc : RefreshSt sig cl → RefreshSt sig cl × Int)
    (inv : cl → Int) (p : Nat) (r : Int) (t : RefreshSt sig cl) (tr : List ReloadKind)
    (t1 : RefreshSt sig cl) (r1 : Int) (h : p &&& WTC_TMUX_REFRESH_SESSIONS ≠ 0)
    (hrs : rs t = (t1, r1)) (hr1 : r1 < 0) :
    refreshStepS rs rw rp rc inv p r t tr = refreshErr p r1 t1 (tr ++ [.sessions]) := by
  simp [refreshStepS, h, hrs, hr1]

lemma refreshStepS_ok {sig cl : Type} (rs rw rp rc : RefreshSt sig cl → RefreshSt sig cl × Int)
    (inv : cl → Int) (p : Nat) (r : Int) (t : RefreshSt sig cl) (tr : List ReloadKind)
    (t1 : RefreshSt sig cl) (r1 : Int) (h : p &&& WTC_TMUX_REFRESH_SESSIONS ≠ 0)
    (hrs : rs t = (t1, r1)) (hr1 : 0 ≤ r1) :
    refreshStepS rs rw rp rc inv p r t tr
      = refreshStepW rw rp rc inv 0 r1 t1 (tr ++ [.sessions]) := by
  simp [refreshStepS, h, hrs, not_lt.mpr hr1]

lemma refreshStepS_skip {sig cl : Type} (rs rw rp rc : RefreshSt sig cl → RefreshSt sig cl × Int)
    (inv : cl → Int) (p : Nat) (r : Int) (t : RefreshSt sig cl) (tr : List ReloadKind)
    (h : p &&& WTC_TMUX_REFRESH_SESSIONS = 0) :
    refreshStepS rs rw rp rc inv p r t tr = refreshStepW rw rp rc inv p r t tr := by
  simp [refreshStepS, h]

lemma refreshStepW_err {sig cl : Type} (rw rp rc : RefreshSt sig cl → RefreshSt sig cl × Int)
    (inv : cl → Int) (p : Nat) (r : Int) (t : RefreshSt sig cl) (tr : List ReloadKind)
    (t1 : RefreshSt sig cl) (r1 : Int) (h : p &&& WTC_TMUX_REFRESH_WINDOWS ≠ 0)
    (hrw : rw t = (t1, r1)) (hr1 : r1 < 0) :
    refreshStepW rw rp rc inv p r t tr = refreshErr p r1 t1 (tr ++ [.windows]) := by
  simp [refreshStepW, h, hrw, hr1]

lemma refreshStepW_ok {sig cl : Type} (rw rp rc : RefreshSt sig cl → RefreshSt sig cl × Int)
    (inv : cl → Int) (p : Nat) (r : Int) (t : RefreshSt sig cl) (tr : List ReloadKind)
    (t1 : RefreshSt sig cl) (r1 : Int) (h : p &&& WTC_TMUX_REFRESH_WINDOWS ≠ 0)
    (hrw : rw t = (t1, r1)) (hr1 : 0 ≤ r1) :
    refreshStepW rw rp rc inv p r t tr
      = refreshStepP rp rc inv (p &&& maskNotWinPanes) r1 t1 (tr ++ [.windows]) := by
  simp [refreshStepW, h, hrw, not_lt.mpr hr1]

lemma refreshStepW_skip {sig cl : Type} (rw rp rc : RefreshSt sig cl → RefreshSt sig cl × Int)
    (inv : cl → Int) (p : Nat) (r : Int) (t : RefreshSt sig cl) (tr : List ReloadKind)
    (h : p &&& WTC_TMUX_REFRESH_WINDOWS = 0) :
    refreshStepW rw rp rc inv p r t tr = refreshStepP rp rc inv p r t tr := by
  simp [refreshStepW, h]

lemma refreshStepP_err {sig cl : Type} (rp rc : RefreshSt sig cl → RefreshSt sig cl × Int)
    (inv : cl → Int) (p : Nat) (r : Int) (t : RefreshSt sig cl) (tr : List ReloadKind)
    (t1 : RefreshSt sig cl) (r1 : Int) (h : p &&& WTC_TMUX_REFRESH_PANES ≠ 0)
    (hrp : rp t = (t1, r1)) (hr1 : r1 < 0) :
    refreshStepP rp rc inv p r t tr = refreshErr p r1 t1 (tr ++ [.panes]) := by
  simp [refreshStepP, h, hrp, hr1]

lemma refreshStepP_ok {sig cl : Type} (rp rc : RefreshSt sig cl → RefreshSt sig cl × Int)
    (inv : cl → Int) (p : Nat) (r : Int) (t : RefreshSt sig cl) (tr : List ReloadKind)
    (t1 : RefreshSt sig cl) (r1 : Int) (h : p &&& WTC_TMUX_REFRESH_PANES ≠ 0)
    (hrp : rp t = (t1, r1)) (hr1 : 0 ≤ r1) :
    refreshStepP rp rc inv p r t tr
      = refreshStepC rc inv (p &&& maskNotPanes) r1 t1 (tr ++ [.panes]) := by
  simp [refreshStepP, h, hrp, not_lt.mpr hr1]

lemma refreshStepP_skip {sig cl : Type} (rp rc : RefreshSt sig cl → RefreshSt sig cl × Int)
    (inv : cl → Int) (p : Nat) (r : Int) (t : RefreshSt sig cl) (tr : List ReloadKind)
    (h : p &&& WTC_TMUX_REFRESH_PANES = 0) :
    refreshStepP rp rc inv p r t tr = refreshStepC rc inv p r t tr := by
  simp [refreshStepP, h]

lemma refreshStepC_err {sig cl : Type} (rc : RefreshSt sig cl → RefreshSt sig cl × Int)
    (inv : cl → Int) (p : Nat) (r : Int) (t : RefreshSt sig cl) (tr : List ReloadKind)
    (t1 : RefreshSt sig cl) (r1 : Int) (h : p &&& WTC_TMUX_REFRESH_CLIENTS ≠ 0)
    (hrc : rc t = (t1, r1)) (hr1 : r1 < 0) :
    refreshStepC rc inv p r t tr = refreshErr p r1 t1 (tr ++ [.clients]) := by
  simp [refreshStepC, h, hrc, hr1]

lemma refreshStepC_ok {sig cl : Type} (rc : RefreshSt sig cl → RefreshSt sig cl × Int)
    (inv : cl → Int) (p : Nat) (r : Int) (t : RefreshSt sig cl) (tr : List ReloadKind)
    (t1 : RefreshSt sig cl) (r1 : Int) (h : p &&& WTC_TMUX_REFRESH_CLIENTS ≠ 0)
    (hrc : rc t = (t1, r1)) (hr1 : 0 ≤ r1) :
    refreshStepC rc inv p r t tr
      = refreshFinish inv (p &&& maskNotClients) r1 t1 (tr ++ [.clients]) := by
  simp [refreshStepC, h, hrc, not_lt.mpr hr1]

lemma refreshStepC_skip {sig cl : Type} (rc : RefreshSt sig cl → RefreshSt sig cl × Int)
    (inv : cl → Int) (p : Nat) (r : Int) (t : RefreshSt sig cl) (tr : List ReloadKind)
    (h : p &&& WTC_TMUX_REFRESH_CLIENTS = 0) :
    refreshStepC rc inv p r t tr = refreshFinish inv p r t tr := by
  simp [refreshStepC, h]

lemma refresh_cb_entry {sig cl : Type} (rs rw rp rc : RefreshSt sig cl → RefreshSt sig cl × Int)
    (inv : cl → Int) (dr : Int) (t0 : RefreshSt sig cl) (hdr : 0 ≤ dr) :
    wtc_tmux_refresh_cb rs rw rp rc inv dr t0
      = refreshStepS rs rw rp rc inv t0.refresh dr { t0 with refresh := 0 } [] := by
  unfold wtc_tmux_refresh_cb
  rw [if_neg (not_lt.mpr hdr)]

/-- Claim C1: with the pipe drained successfully, the refresh callback
snapshots the refresh bitmask, zeroes the field, and runs the reloads in
strict precedence order over the snapshot (the ghost trace lists exactly
the reloads that ran): a pending Sessions runs the sessions reload alone
and on success clears all four flags (nothing is OR-ed back); otherwise a
pending Windows runs the windows reload, clearing Windows and Panes so the
panes reload cannot run; otherwise a pending Panes runs the panes reload;
independently, a still-pending Clients runs the clients reload.  Whenever
a reload returns a negative value, the bits of the local copy not yet
cleared are OR-ed back into the refresh field, the queued closures are
discarded, and the error is returned; a failed pipe drain returns its
error with nothing run.  The bound on the snapshot reflects that the
refresh field only ever accumulates the four flag bits. -/
theorem c1_refresh_cb_precedence {sig cl : Type}
    (rs rw rp rc : RefreshSt sig cl → RefreshSt sig cl × Int)
    (inv : cl → Int) (dr : Int) (t0 : RefreshSt sig cl)
    (h16 : t0.refresh < 16) :
    (dr < 0 → wtc_tmux_refresh_cb rs rw rp rc inv dr t0 = (t0, dr, [])) ∧
    (0 ≤ dr → t0.refresh &&& WTC_TMUX_REFRESH_SESSIONS ≠ 0 →
      ∀ t1 r1, rs { t0 with refresh := 0 } = (t1, r1) →
        (r1 < 0 → wtc_tmux_refresh_cb rs rw rp rc inv dr t0 =
            ({ t1 with refresh := t1.refresh ||| t0.refresh, closures := [] }, r1,
              [ReloadKind.sessions])) ∧
        (0 ≤ r1 → wtc_tmux_refresh_cb rs rw rp rc inv dr t0 =
            ({ t1 with closures := [] }, runClosuresFrom inv r1 t1.closures,
              [ReloadKind.sessions]))) ∧
    (0 ≤ dr → t0.refresh &&& WTC_TMUX_REFRESH_SESSIONS = 0 →
      t0.refresh &&& WTC_TMUX_REFRESH_WINDOWS ≠ 0 →
      ∀ t1 r1, rw { t0 with refresh := 0 } = (t1, r1) →
        (r1 < 0 → wtc_tmux_refresh_cb rs rw rp rc inv dr t0 =
            ({ t1 with refresh := t1.refresh ||| t0.refresh, closures := [] }, r1,
              [ReloadKind.windows])) ∧
        (0 ≤ r1 → t0.refresh &&& WTC_TMUX_REFRESH_CLIENTS = 0 →
          wtc_tmux_refresh_cb rs rw rp rc inv dr t0 =
            ({ t1 with closures := [] }, runClosuresFrom inv r1 t1.closures,
              [ReloadKind.windows])) ∧
        (0 ≤ r1 → t0.refresh &&& WTC_TMUX_REFRESH_CLIENTS ≠ 0 →
          ∀ t2 r2, rc t1 = (t2, r2) →
            (r2 < 0 → wtc_tmux_refresh_cb rs rw rp rc inv dr t0 =
                ({ t2 with refresh := t2.refresh ||| WTC_TMUX_REFRESH_CLIENTS
                           closures := [] }, r2,
                  [ReloadKind.windows, ReloadKind.clients])) ∧
            (0 ≤ r2 → wtc_tmux_refresh_cb rs rw rp rc inv dr t0 =
                ({ t2 with closures := [] }, runClosuresFrom inv r2 t2.closures,
                  [ReloadKind.windows, ReloadKind.clients])))) ∧
    (0 ≤ dr → t0.refresh &&& WTC_TMUX_REFRESH_SESSIONS = 0 →
      t0.refresh &&& WTC_TMUX_REFRESH_WINDOWS = 0 →
      t0.refresh &&& WTC_TMUX_REFRESH_PANES ≠ 0 →
      ∀ t1 r1, rp { t0 with refresh := 0 } = (t1, r1) →
        (r1 < 0 → wtc_tmux_refresh_cb rs rw rp rc inv dr t0 =
            ({ t1 with refresh := t1.refresh ||| t0.refresh, closures := [] }, r1,
              [ReloadKind.panes])) ∧
        (0 ≤ r1 → t0.refresh &&& WTC_TMUX_REFRESH_CLIENTS = 0 →
          wtc_tmux_refresh_cb rs rw rp rc inv dr t0 =
            ({ t1 with closures := [] }, runClosuresFrom inv r1 t1.closures,
              [ReloadKind.panes])) ∧
        (0 ≤ r1 → t0.refresh &&& WTC_TMUX_REFRESH_CLIENTS ≠ 0 →
          ∀ t2 r2, rc t1 = (t2, r2) →
            (r2 < 0 → wtc_tmux_refresh_cb rs rw rp rc inv dr t0 =
                ({ t2 with refresh := t2.refresh ||| WTC_TMUX_REFRESH_CLIENTS
                           closures := [] }, r2,
                  [ReloadKind.panes, ReloadKind.clients])) ∧
            (0 ≤ r2 → wtc_tmux_refresh_cb rs rw rp rc inv dr t0 =
                ({ t2 with closures := [] }, runClosuresFrom inv r2 t2.closures,
                  [ReloadKind.panes, ReloadKind.clients])))) ∧
    (0 ≤ dr → t0.refresh &&& WTC_TMUX_REFRESH_SESSIONS = 0 →
      t0.refresh &&& WTC_TMUX_REFRESH_WINDOWS = 0 →
      t0.refresh &&& WTC_TMUX_REFRESH_PANES = 0 →
      (t0.refresh &&& WTC_TMUX_REFRESH_CLIENTS = 0 →
        wtc_tmux_refresh_cb rs rw rp rc inv dr t0 =
          ({ t0 with refresh := 0, closures := [] },
            runClosuresFrom inv dr t0.closures, [])) ∧
      (t0.refresh &&& WTC_TMUX_REFRESH_CLIENTS ≠ 0 →
        ∀ t1 r1, rc { t0 with refresh := 0 } = (t1, r1) →
          (r1 < 0 → wtc_tmux_refresh_cb rs rw rp rc inv dr t0 =
              ({ t1 with refresh := t1.refresh ||| t0.refresh, closures := [] }, r1,
                [ReloadKind.clients])) ∧
          (0 ≤ r1 → wtc_tmux_refresh_cb rs rw rp rc inv dr t0 =
              ({ t1 with closures := [] }, runClosuresFrom inv r1 t1.closures,
                [ReloadKind.clients])))) := by
  refine ⟨?_, ?_, ?_, ?_, ?_⟩
  · intro hdr
    unfold wtc_tmux_refresh_cb
    rw [if_pos hdr]
  · intro hdr h4 t1 r1 hrs
    constructor
    · intro hr1
      rw [refresh_cb_entry rs rw rp rc inv dr t0 hdr,
        refreshStepS_err rs rw rp rc inv _ dr _ [] t1 r1 h4 hrs hr1,
        refreshErr_eq _ _ _ _ (land_ne_zero_left h4)]
      simp
    · intro hr1
      rw [refresh_cb_entry rs rw rp rc inv dr t0 hdr,
        refreshStepS_ok rs rw rp rc inv _ dr _ [] t1 r1 h4 hrs hr1,
        refreshStepW_skip rw rp rc inv 0 r1 t1 _ (by decide),
        refreshStepP_skip rp rc inv 0 r1 t1 _ (by decide),
        refreshStepC_skip rc inv 0 r1 t1 _ (by decide),
        refreshFinish_zero]
      simp
  · intro hdr h4 h2 t1 r1 hrw
    refine ⟨?_, ?_, ?_⟩
    · intro hr1
      rw [refresh_cb_entry rs rw rp rc inv dr t0 hdr,
        refreshStepS_skip rs rw rp rc inv _ dr _ [] h4,
        refreshStepW_err rw rp rc inv _ dr _ [] t1 r1 h2 hrw hr1,
        refreshErr_eq _ _ _ _ (land_ne_zero_left h2)]
      simp
    · intro hr1 h8
      rw [refresh_cb_entry rs rw rp rc inv dr t0 hdr,
        refreshStepS_skip rs rw rp rc inv _ dr _ [] h4,
        refreshStepW_ok rw rp rc inv _ dr _ [] t1 r1 h2 hrw hr1,
        refreshStepP_skip rp rc inv _ r1 t1 _ (landWP_one t0.refresh),
        refreshStepC_skip rc inv _ r1 t1 _ (by rw [landWP_eight]; exact h8),
        p16_wp_zero h16 h4 h8, refreshFinish_zero]
      simp
    · intro hr1 h8 t2 r2 hrc
      have hwp8 : t0.refresh &&& maskNotWinPanes = 8 := p16_wp_eight h16 h4 h8
      constructor
      · intro hr2
        rw [refresh_cb_entry rs rw rp rc inv dr t0 hdr,
          refreshStepS_skip rs rw rp rc inv _ dr _ [] h4,
          refreshStepW_ok rw rp rc inv _ dr _ [] t1 r1 h2 hrw hr1,
          refreshStepP_skip rp rc inv _ r1 t1 _ (landWP_one t0.refresh),
          refreshStepC_err rc inv _ r1 t1 _ t2 r2
            (by rw [landWP_eight]; exact h8) hrc hr2,
          hwp8, refreshErr_eq _ _ _ _ (by norm_num)]
        simp [WTC_TMUX_REFRESH_CLIENTS]
      · intro hr2
        rw [refresh_cb_entry rs rw rp rc inv dr t0 hdr,
          refreshStepS_skip rs rw rp rc inv _ dr _ [] h4,
          refreshStepW_ok rw rp rc inv _ dr _ [] t1 r1 h2 hrw hr1,
          refreshStepP_skip rp rc inv _ r1 t1 _ (landWP_one t0.refresh),
          refreshStepC_ok rc inv _ r1 t1 _ t2 r2
            (by rw [landWP_eight]; exact h8) hrc hr2,
          hwp8, eight_c_zero, refreshFinish_zero]
        simp
  · intro hdr h4 h2 h1 t1 r1 hrp
    refine ⟨?_, ?_, ?_⟩
    · intro hr1
      rw [refresh_cb_entry rs rw rp rc inv dr t0 hdr,
        refreshStepS_skip rs rw rp rc inv _ dr _ [] h4,
        refreshStepW_skip rw rp rc inv _ dr _ [] h2,
        refreshStepP_err rp rc inv _ dr _ [] t1 r1 h1 hrp hr1,
        refreshErr_eq _ _ _ _ (land_ne_zero_left h1)]
      simp
    · intro hr1 h8
      rw [refresh_cb_entry rs rw rp rc inv dr t0 hdr,
        refreshStepS_skip rs rw rp rc inv _ dr _ [] h4,
        refreshStepW_skip rw rp rc inv _ dr _ [] h2,
        refreshStepP_ok rp rc inv _ dr _ [] t1 r1 h1 hrp hr1,
        refreshStepC_skip rc inv _ r1 t1 _ (by rw [landP_eight]; exact h8),
        p16_p_zero h16 h4 h2 h8, refreshFinish_zero]
      simp
    · intro hr1 h8 t2 r2 hrc
      have hp8 : t0.refresh &&& maskNotPanes = 8 := p16_p_eight h16 h4 h2 h8
      constructor
      · intro hr2
        rw [refresh_cb_entry rs rw rp rc inv dr t0 hdr,
          refreshStepS_skip rs rw rp rc inv _ dr _ [] h4,
          refreshStepW_skip rw rp rc inv _ dr _ [] h2,
          refreshStepP_ok rp rc inv _ dr _ [] t1 r1 h1 hrp hr1,
          refreshStepC_err rc inv _ r1 t1 _ t2 r2
            (by rw [landP_eight]; exact h8) hrc hr2,
          hp8, refreshErr_eq _ _ _ _ (by norm_num)]
        simp [WTC_TMUX_REFRESH_CLIENTS]
      · intro hr2
        rw [refresh_cb_entry rs rw rp rc inv dr t0 hdr,
          refreshStepS_skip rs rw rp rc inv _ dr _ [] h4,
          refreshStepW_skip rw rp rc inv _ dr _ [] h2,
          refreshStepP_ok rp rc inv _ dr _ [] t1 r1 h1 hrp hr1,
          refreshStepC_ok rc inv _ r1 t1 _ t2 r2
            (by rw [landP_eight]; exact h8) hrc hr2,
          hp8, eight_c_zero, refreshFinish_zero]
        simp
  · intro hdr h4 h2 h1
    constructor
    · intro h8
      have hz : t0.refresh = 0 := p16_zero h16 h4 h2 h1 h8
      rw [refresh_cb_entry rs rw rp rc inv dr t0 hdr,
        refreshStepS_skip rs rw rp rc inv _ dr _ [] h4,
        refreshStepW_skip rw rp rc inv _ dr _ [] h2,
        refreshStepP_skip rp rc inv _ dr _ [] h1,
        refreshStepC_skip rc inv _ dr _ [] h8,
        hz, refreshFinish_zero]
    · intro h8 t1 r1 hrc
      constructor
      · intro hr1
        rw [refresh_cb_entry rs rw rp rc inv dr t0 hdr,
          refreshStepS_skip rs rw rp rc inv _ dr _ [] h4,
          refreshStepW_skip rw rp rc inv _ dr _ [] h2,
          refreshStepP_skip rp rc inv _ dr _ [] h1,
          refreshStepC_err rc inv _ dr _ [] t1 r1 h8 hrc hr1,
          refreshErr_eq _ _ _ _ (land_ne_zero_left h8)]
        simp
      · intro hr1
        have he : t0.refresh = 8 := p16_eight h16 h4 h2 h1 h8
        rw [refresh_cb_entry rs rw rp rc inv dr t0 hdr,
          refreshStepS_skip rs rw rp rc inv _ dr _ [] h4,
          refreshStepW_skip rw rp rc inv _ dr _ [] h2,
          refreshStepP_skip rp rc inv _ dr _ [] h1,
          refreshStepC_ok rc inv _ dr _ [] t1 r1 h8 hrc hr1,
          he, eight_c_zero, refreshFinish_zero]
        simp

/-- Claim C1 witness: the precedence theorem applied at a concrete state
with Sessions and Clients pending and a sessions reload failing with -5:
only the sessions reload runs, its error puts both pending bits back into
the refresh field, the closure queue is discarded, and -5 is returned. -/
theorem c1_refresh_cb_precedence_witness :
    (0 : Int) ≤ 0 ∧ (12 : Nat) < 16 ∧ (12 : Nat) &&& WTC_TMUX_REFRESH_SESSIONS ≠ 0 ∧
    wtc_tmux_refresh_cb c1wRs c1wId c1wId c1wId c1wInv 0 c1wSt
      = ({ refresh := 12, closures := [], inner := () }, -5, [ReloadKind.sessions]) := by
  refine ⟨le_refl 0, by norm_num, by decide, ?_⟩
  have h := ((c1_refresh_cb_precedence c1wRs c1wId c1wId c1wId c1wInv 0 c1wSt
      (by decide)).2.1 (le_refl 0) (by decide)
      { refresh := 0, closures := [], inner := () } (-5) rfl).1 (by norm_num)
  simpa [c1wSt] using h
